import Mathlib

/-!
Shallow embedding of the HotDesking booking service: the data model
(shared/schema.ts), the storage layer (server/storage.ts,
`DatabaseStorage`), and the route handlers of the bookings and
user-management API (server routes file), translated for verification
of the booking conflict-resolution and availability logic.

Dates, ids and user ids are strings as in the source (varchar columns);
timestamps are naturals (an abstract clock `now` held in the store).
-/

namespace HotDesking

/-- Enum `time_slot`: AM / PM half-day slots (shared/schema.ts). -/
inductive Slot where
  | AM
  | PM
deriving DecidableEq, Repr

/-- Enum `user_role` (shared/schema.ts). -/
inductive Role where
  | employee
  | admin
deriving DecidableEq, Repr

/-- Rendering of a slot as in the template string `${slot}` of the
bulk-conflict message. -/
def slotToString : Slot → String
  | Slot.AM => "AM"
  | Slot.PM => "PM"

/-- A row of the `seats` table (shared/schema.ts); only the columns the
booking logic reads are carried (spatial and metadata columns are never
consulted by the handlers embedded here). -/
structure Seat where
  id : String
  name : String
  isBlocked : Bool
  isLongTermReserved : Bool
  longTermReservedBy : Option String := none
deriving DecidableEq, Repr

/-- A row of the `bookings` table (shared/schema.ts). `cancelledAt` is the
nullable cancellation timestamp; a booking is active iff it is `none`. -/
structure Booking where
  id : String
  seatId : String
  userId : String
  userName : Option String
  userEmail : Option String
  date : String
  slot : Slot
  createdAt : Nat
  cancelledAt : Option Nat
deriving DecidableEq, Repr

/-- A row of the `user_roles` table, with the `isActive` flag carried by the
storage interface (`IStorage.updateUserRole`, server/storage.ts). -/
structure UserRole where
  userId : String
  role : Role
  isActive : Bool
deriving DecidableEq, Repr

/-- Shape of `insertBookingSchema` (shared/schema.ts): a booking row to be
inserted, before `id` / `createdAt` / `cancelledAt` are filled in. -/
structure InsertBooking where
  seatId : String
  userId : String
  userName : Option String
  userEmail : Option String
  date : String
  slot : Slot
deriving DecidableEq, Repr

/-- The database state the handlers read and write, plus a counter for
generated booking ids (`gen_random_uuid()` default) and an abstract clock
for `new Date()` timestamps. -/
structure Store where
  seats : List Seat
  bookings : List Booking
  userRoles : List UserRole
  nextId : Nat
  now : Nat
deriving DecidableEq, Repr

/-- Fresh primary key for an inserted booking row. -/
def freshBookingId (n : Nat) : String := "bk-" ++ toString n

/-- Storage op `DatabaseStorage.getSeat`: select from seats where id matches. -/
def getSeat (st : Store) (id : String) : Option Seat :=
  st.seats.find? (fun s => s.id == id)

/-- Storage op `DatabaseStorage.getBookingsBySeatAndDate`: select from bookings where
seatId and date match and `cancelledAt` is null. -/
def getBookingsBySeatAndDate (st : Store) (seatId date : String) : List Booking :=
  st.bookings.filter (fun b => b.seatId == seatId && b.date == date && b.cancelledAt == none)

/-- Storage op `DatabaseStorage.getBooking`: select from bookings where id matches. -/
def getBooking (st : Store) (id : String) : Option Booking :=
  st.bookings.find? (fun b => b.id == id)

/-- Storage op `DatabaseStorage.getUserRole`: select from user_roles where userId
matches. -/
def getUserRole (st : Store) (userId : String) : Option UserRole :=
  st.userRoles.find? (fun r => r.userId == userId)

/-- Storage op `DatabaseStorage.createBooking`: insert one row (id generated,
`createdAt` defaulted to now, `cancelledAt` null) and return it. -/
def storageCreateBooking (st : Store) (ins : InsertBooking) : Booking × Store :=
  let b : Booking :=
    { id := freshBookingId st.nextId
      seatId := ins.seatId
      userId := ins.userId
      userName := ins.userName
      userEmail := ins.userEmail
      date := ins.date
      slot := ins.slot
      createdAt := st.now
      cancelledAt := none }
  (b, { st with bookings := st.bookings ++ [b], nextId := st.nextId + 1 })

/-- Storage op `DatabaseStorage.createBulkBookings`: empty input inserts nothing;
otherwise the rows are inserted as one multi-row insert, in input order,
and the inserted rows are returned. -/
def storageCreateBulkBookings (st : Store) : List InsertBooking → List Booking × Store
  | [] => ([], st)
  | ins :: rest =>
    let r1 := storageCreateBooking st ins
    let r2 := storageCreateBulkBookings r1.2 rest
    (r1.1 :: r2.1, r2.2)

/-- Storage op `DatabaseStorage.cancelBooking`: update bookings set
`cancelledAt = new Date()` where id matches, returning the updated row. -/
def storageCancelBooking (st : Store) (id : String) : Option Booking × Store :=
  let updated := st.bookings.map
    (fun b => if b.id == id then { b with cancelledAt := some st.now } else b)
  ((updated.filter (fun b => b.id == id)).head?, { st with bookings := updated })

/-- Storage op `DatabaseStorage.setUserRole`: insert with on-conflict-do-update of the
role column (new rows get the default active flag). -/
def storageSetUserRole (st : Store) (userId : String) (role : Role) : UserRole × Store :=
  match getUserRole st userId with
  | some _ =>
    let updated := st.userRoles.map
      (fun r => if r.userId == userId then { r with role := role } else r)
    (((updated.filter (fun r => r.userId == userId)).head?).getD
        { userId := userId, role := role, isActive := true },
      { st with userRoles := updated })
  | none =>
    let nr : UserRole := { userId := userId, role := role, isActive := true }
    (nr, { st with userRoles := st.userRoles ++ [nr] })

/-- Storage op `DatabaseStorage.updateUserRole`: update user_roles set the supplied
subset of {role, isActive} where userId matches, returning the updated
row. -/
def storageUpdateUserRole (st : Store) (userId : String)
    (role : Option Role) (isActive : Option Bool) : Option UserRole × Store :=
  let updated := st.userRoles.map
    (fun r =>
      if r.userId == userId then
        { r with role := role.getD r.role, isActive := isActive.getD r.isActive }
      else r)
  ((updated.filter (fun r => r.userId == userId)).head?, { st with userRoles := updated })

/-- Storage op `DatabaseStorage.deleteUserRole`: delete from user_roles where userId
matches. -/
def storageDeleteUserRole (st : Store) (userId : String) : Store :=
  { st with userRoles := st.userRoles.filter (fun r => r.userId != userId) }

/-- HTTP outcome of the single-booking and cancel handlers. -/
inductive Outcome where
  | created (booking : Booking)
  | ok (booking : Option Booking)
  | conflict (message : String)
  | notFound (message : String)
  | forbidden (message : String)
  | badRequest (message : String)
  | serverError (message : String)
deriving DecidableEq, Repr

/-- Request body of `POST /api/bookings` after `insertBookingSchema.parse`
(seat, date and slot; the user fields come from the session claims). -/
structure BookingRequest where
  seatId : String
  date : String
  slot : Slot
deriving DecidableEq, Repr

/-- Handler of `POST /api/bookings`. The handler body runs inside a
try/catch whose catch-all maps any thrown storage error to a 500
"Failed to create booking" response; `insertThrows` selects whether the
`storage.createBooking` call throws. -/
def postBookings (st : Store) (userId : String) (userName userEmail : Option String)
    (req : BookingRequest) (insertThrows : Bool) : Outcome × Store :=
  let existingBookings := getBookingsBySeatAndDate st req.seatId req.date
  let slotTaken := existingBookings.any (fun b => b.slot == req.slot)
  if slotTaken then
    (Outcome.conflict "Slot already booked", st)
  else
    match getSeat st req.seatId with
    | none => (Outcome.notFound "Seat not found", st)
    | some seat =>
      if seat.isBlocked then
        (Outcome.conflict "Seat is blocked", st)
      else if seat.isLongTermReserved then
        (Outcome.conflict "Seat is reserved for long-term use", st)
      else if insertThrows then
        (Outcome.serverError "Failed to create booking", st)
      else
        let r := storageCreateBooking st
          { seatId := req.seatId, userId := userId, userName := userName,
            userEmail := userEmail, date := req.date, slot := req.slot }
        (Outcome.created r.1, r.2)

/-- Request body of `POST /api/bookings/bulk` after `bulkBookingSchema.parse`
(each list is required non-empty by the schema's `.min(1)`). -/
structure BulkRequest where
  seatIds : List String
  dates : List String
  slots : List Slot
deriving DecidableEq, Repr

/-- Shape of the 201 response of the bulk handler: the inserted rows, the
conflicts list (omitted — `undefined` — when empty), and the two counts. -/
structure BulkSuccess where
  bookings : List Booking
  conflicts : Option (List String)
  created : Nat
  failed : Nat
deriving DecidableEq, Repr

/-- HTTP outcome of the bulk handler. -/
inductive BulkOutcome where
  | success (body : BulkSuccess)
  | noneCreated (message : String) (conflicts : List String)
  | badRequest (message : String)
deriving DecidableEq, Repr

/-- Innermost loop of the bulk handler: `for (const slot of slots)`.
Checks each requested slot against the `existingBookings` fetched for this
(seat, date); a taken slot records a conflict string, a free one appends a
pending insert row. Returns the (pending, conflicts) contributions in input
order. -/
def slotLoop (seatId : String) (userId : String) (uName uEmail : Option String)
    (seatName : String) (existing : List Booking) (date : String) :
    List Slot → List InsertBooking × List String
  | [] => ([], [])
  | slot :: rest =>
    let r := slotLoop seatId userId uName uEmail seatName existing date rest
    if existing.any (fun b => b.slot == slot) then
      (r.1, (seatName ++ " on " ++ date ++ " " ++ slotToString slot ++ " already booked") :: r.2)
    else
      ({ seatId := seatId, userId := userId, userName := uName, userEmail := uEmail,
         date := date, slot := slot } :: r.1, r.2)

/-- Middle loop of the bulk handler: `for (const date of dates)`. The
non-cancelled bookings for (seatId, date) are fetched once per date and
reused across the slot loop. -/
def dateLoop (st : Store) (seatId : String) (userId : String)
    (uName uEmail : Option String) (seatName : String) (slots : List Slot) :
    List String → List InsertBooking × List String
  | [] => ([], [])
  | date :: rest =>
    let existing := getBookingsBySeatAndDate st seatId date
    let r1 := slotLoop seatId userId uName uEmail seatName existing date slots
    let r2 := dateLoop st seatId userId uName uEmail seatName slots rest
    (r1.1 ++ r2.1, r1.2 ++ r2.2)

/-- Outer loop of the bulk handler: `for (const seatId of seatIds)`. A
missing, blocked, or long-term-reserved seat records one conflict entry and
skips (`continue`) all of that seat's date×slot combinations. -/
def seatLoop (st : Store) (userId : String) (uName uEmail : Option String)
    (dates : List String) (slots : List Slot) :
    List String → List InsertBooking × List String
  | [] => ([], [])
  | seatId :: rest =>
    let r2 := seatLoop st userId uName uEmail dates slots rest
    match getSeat st seatId with
    | none => (r2.1, ("Seat " ++ seatId ++ " not found") :: r2.2)
    | some seat =>
      if seat.isBlocked then
        (r2.1, ("Seat " ++ seat.name ++ " is blocked") :: r2.2)
      else if seat.isLongTermReserved then
        (r2.1, ("Seat " ++ seat.name ++ " is reserved for long-term use") :: r2.2)
      else
        let r1 := dateLoop st seatId userId uName uEmail seat.name slots dates
        (r1.1 ++ r2.1, r1.2 ++ r2.2)

/-- Handler of `POST /api/bookings/bulk`: validate, expand seats × dates ×
slots collecting pending inserts and conflicts, 409 when nothing could be
created, otherwise one batch insert and a 201 report. -/
def postBulkBookings (st : Store) (userId : String) (uName uEmail : Option String)
    (req : BulkRequest) : BulkOutcome × Store :=
  if req.seatIds.isEmpty || req.dates.isEmpty || req.slots.isEmpty then
    (BulkOutcome.badRequest "Invalid booking data", st)
  else
    let collected := seatLoop st userId uName uEmail req.dates req.slots req.seatIds
    let bookingsToCreate := collected.1
    let conflicts := collected.2
    if bookingsToCreate.isEmpty then
      (BulkOutcome.noneCreated "No bookings could be created" conflicts, st)
    else
      let ins := storageCreateBulkBookings st bookingsToCreate
      (BulkOutcome.success
        { bookings := ins.1
          conflicts := if conflicts.length > 0 then some conflicts else none
          created := ins.1.length
          failed := conflicts.length }, ins.2)

/-- Handler of `DELETE /api/bookings/:id`: 404 when the booking id does not
exist; 403 when the requester neither owns the booking nor is admin;
otherwise set `cancelledAt` and return the updated row. -/
def deleteBookingHandler (st : Store) (userId : String) (bookingId : String) :
    Outcome × Store :=
  match getBooking st bookingId with
  | none => (Outcome.notFound "Booking not found", st)
  | some booking =>
    let userRole := getUserRole st userId
    if booking.userId != userId && userRole.map (fun r => r.role) != some Role.admin then
      (Outcome.forbidden "Not authorized to cancel this booking", st)
    else
      let r := storageCancelBooking st bookingId
      (Outcome.ok r.1, r.2)

/-- HTTP outcome of the user-management handlers. -/
inductive AdminOutcome where
  | okRole (role : Option UserRole)
  | okMessage (message : String)
  | forbidden (message : String)
  | badRequest (message : String)
deriving DecidableEq, Repr

/-- Request body of `PATCH /api/users/:userId/role` (`updateUserRoleSchema`): an
optional role and an optional active flag, matching the update shape of
`IStorage.updateUserRole` (server/storage.ts). -/
structure RoleUpdateBody where
  role : Option Role
  isActive : Option Bool
deriving DecidableEq, Repr

/-- Handler of `PATCH /api/users/:userId/role`: admin-only; an admin
self-targeting with role "employee" is rejected (400 "Cannot demote
yourself") before any storage write; otherwise the role record is created
or updated. -/
def patchUserRole (st : Store) (adminId targetUserId : String)
    (body : RoleUpdateBody) : AdminOutcome × Store :=
  let adminRole := getUserRole st adminId
  if adminRole.map (fun r => r.role) != some Role.admin then
    (AdminOutcome.forbidden "Admin access required", st)
  else if targetUserId == adminId && body.role == some Role.employee then
    (AdminOutcome.badRequest "Cannot demote yourself", st)
  else
    match getUserRole st targetUserId with
    | none =>
      let r := storageSetUserRole st targetUserId (body.role.getD Role.employee)
      (AdminOutcome.okRole (some r.1), r.2)
    | some _ =>
      let r := storageUpdateUserRole st targetUserId body.role body.isActive
      (AdminOutcome.okRole r.1, r.2)

/-- Handler of `PATCH /api/users/:userId/status`: admin-only; any admin
self-targeting request is rejected (400 "Cannot deactivate yourself")
before any storage write; otherwise the active flag is set (creating a
default employee role record first when none exists). -/
def patchUserStatus (st : Store) (adminId targetUserId : String)
    (isActive : Bool) : AdminOutcome × Store :=
  let adminRole := getUserRole st adminId
  if adminRole.map (fun r => r.role) != some Role.admin then
    (AdminOutcome.forbidden "Admin access required", st)
  else if targetUserId == adminId then
    (AdminOutcome.badRequest "Cannot deactivate yourself", st)
  else
    let st1 :=
      match getUserRole st targetUserId with
      | none => (storageSetUserRole st targetUserId Role.employee).2
      | some _ => st
    let r := storageUpdateUserRole st1 targetUserId none (some isActive)
    (AdminOutcome.okRole r.1, r.2)

/-- Handler of `DELETE /api/users/:userId`: admin-only; any admin
self-targeting request is rejected (400 "Cannot delete yourself") before
any storage write; otherwise the role record is deleted. -/
def deleteUserHandler (st : Store) (adminId targetUserId : String) :
    AdminOutcome × Store :=
  let adminRole := getUserRole st adminId
  if adminRole.map (fun r => r.role) != some Role.admin then
    (AdminOutcome.forbidden "Admin access required", st)
  else if targetUserId == adminId then
    (AdminOutcome.badRequest "Cannot delete yourself", st)
  else
    (AdminOutcome.okMessage "User removed successfully", storageDeleteUserRole st targetUserId)

/-- Number of non-cancelled bookings a store holds for one
(seatId, date, slot) tuple — the quantity the mutual-exclusion invariant
bounds by one. -/
def countActive (st : Store) (seatId date : String) (slot : Slot) : Nat :=
  (st.bookings.filter (fun b =>
    b.seatId == seatId && b.date == date && b.slot == slot && b.cancelledAt == none)).length

/-- Whether an outcome is a 201 created response. -/
def isCreated : Outcome → Bool
  | Outcome.created _ => true
  | _ => false

/-! ## Concrete fixtures used by counterexamples and witnesses -/

/-- A plain bookable seat. -/
def seatFreeA : Seat :=
  { id := "A", name := "A1", isBlocked := false, isLongTermReserved := false }

/-- An admin-blocked seat. -/
def seatBlockedB : Seat :=
  { id := "B", name := "B1", isBlocked := true, isLongTermReserved := false }

/-- An active (non-cancelled) booking of seat B for 2024-01-10 AM. -/
def bookingB_AM : Booking :=
  { id := "x", seatId := "B", userId := "u0", userName := none, userEmail := none,
    date := "2024-01-10", slot := Slot.AM, createdAt := 0, cancelledAt := none }

/-- Store with one free seat A and no bookings. -/
def stFreeA : Store :=
  { seats := [seatFreeA], bookings := [], userRoles := [], nextId := 0, now := 0 }

/-- Store whose seat B is blocked and additionally has its AM slot of
2024-01-10 occupied by an active booking. -/
def stBlockedAndTaken : Store :=
  { seats := [seatBlockedB], bookings := [bookingB_AM], userRoles := [],
    nextId := 1, now := 5 }

/-- Created-count of a bulk outcome, when it is a 201 success. -/
def bulkCreatedCount : BulkOutcome → Option Nat
  | BulkOutcome.success body => some body.created
  | _ => none

/-- Failed-count of a bulk outcome, when it is a 201 success. -/
def bulkFailedCount : BulkOutcome → Option Nat
  | BulkOutcome.success body => some body.failed
  | _ => none

/-- Conflicts list carried by a bulk outcome. -/
def bulkConflicts : BulkOutcome → Option (List String)
  | BulkOutcome.success body => body.conflicts
  | BulkOutcome.noneCreated _ conflicts => some conflicts
  | _ => none

/-- Store with free seat A and blocked seat B, no bookings. -/
def stFreeABlockedB : Store :=
  { seats := [seatFreeA, seatBlockedB], bookings := [], userRoles := [],
    nextId := 0, now := 0 }

/-- Store containing only the blocked seat B. -/
def stBlockedOnly : Store :=
  { seats := [seatBlockedB], bookings := [], userRoles := [], nextId := 0, now := 0 }

/-- Store with one active booking of seat A owned by user u0, and no role
records (so requester u2 is neither owner nor admin). -/
def stWithBookingA : Store :=
  { seats := [seatFreeA],
    bookings := [{ id := "x", seatId := "A", userId := "u0", userName := none,
                   userEmail := none, date := "2024-01-10", slot := Slot.AM,
                   createdAt := 0, cancelledAt := none }],
    userRoles := [], nextId := 1, now := 7 }

/-- Store whose only role record makes user "adm" an active admin. -/
def stAdmin : Store :=
  { seats := [], bookings := [],
    userRoles := [{ userId := "adm", role := Role.admin, isActive := true }],
    nextId := 0, now := 0 }

/-! ## C1 -/

/-- Claim C1: the claim states that every state reachable by sequential
`createBooking` / `createBulkBookings` / `cancelBooking` operations —
explicitly including bulk requests with duplicate entries in their lists —
has at most one non-cancelled booking per (seatId, date, slot) tuple. The
code violates it: a single bulk request for seat A with `slots = [AM, AM]`
checks both occurrences against the bookings fetched from storage (which do
not yet contain the pending rows) and batch-inserts two active bookings for
the same tuple, leaving `countActive = 2`. -/
theorem C1_bulk_duplicate_slots_double_book :
    countActive
      ((postBulkBookings stFreeA "u1" none none
          { seatIds := ["A"], dates := ["2024-01-10"], slots := [Slot.AM, Slot.AM] }).2)
      "A" "2024-01-10" Slot.AM = 2 := by
  rfl

/-! ## C2 -/

/-- Claim C2 counterexample: on a blocked seat whose requested slot is already
occupied, the single-booking handler returns the "Slot already booked"
conflict — not the "Seat is blocked" outcome the claim requires — because
the handler consults the booking history before the seat's administrative
state. -/
theorem C2_counterexample_slot_taken_beats_blocked :
    (postBookings stBlockedAndTaken "u1" none none
        { seatId := "B", date := "2024-01-10", slot := Slot.AM } false).1
      = Outcome.conflict "Slot already booked"
    ∧ (postBookings stBlockedAndTaken "u1" none none
        { seatId := "B", date := "2024-01-10", slot := Slot.AM } false).1
      ≠ Outcome.conflict "Seat is blocked" := by
  constructor
  · rfl
  · decide

/-- Claim C2 amended: the single-booking availability check evaluates slot
occupancy FIRST: whenever the requested slot already has a non-cancelled
booking, the handler answers Conflict "Slot already booked" without
consulting seat existence, `isBlocked`, or `isLongTermReserved` (those are
checked, in that order, only when the slot is free), and the store is left
unchanged. -/
theorem C2_amended_slot_taken_checked_first (st : Store) (userId : String)
    (uName uEmail : Option String) (req : BookingRequest) (insertThrows : Bool)
    (h : (getBookingsBySeatAndDate st req.seatId req.date).any
          (fun b => b.slot == req.slot) = true) :
    postBookings st userId uName uEmail req insertThrows
      = (Outcome.conflict "Slot already booked", st) := by
  unfold postBookings
  simp [h]

/-- Claim C2 amended, witnessed at the blocked-and-taken store: the hypothesis
(slot occupied) holds there and the amended conclusion follows. -/
theorem C2_amended_witness :
    postBookings stBlockedAndTaken "u1" none none
        { seatId := "B", date := "2024-01-10", slot := Slot.AM } false
      = (Outcome.conflict "Slot already booked", stBlockedAndTaken) :=
  C2_amended_slot_taken_checked_first stBlockedAndTaken "u1" none none
    { seatId := "B", date := "2024-01-10", slot := Slot.AM } false (by rfl)

/-! ## Helper lemmas about the bulk-collection loops -/

/-- Every pending insert produced by the slot loop carries the seat id the
loop was run for. -/
theorem slotLoop_seatId (seatId userId : String) (uName uEmail : Option String)
    (seatName : String) (existing : List Booking) (date : String) :
    ∀ (slots : List Slot) (p : InsertBooking),
      p ∈ (slotLoop seatId userId uName uEmail seatName existing date slots).1 →
      p.seatId = seatId := by
  intro slots
  induction slots with
  | nil =>
    intro p hp
    simp [slotLoop] at hp
  | cons slot rest ih =>
    intro p hp
    simp only [slotLoop] at hp
    split at hp
    · exact ih p hp
    · rcases List.mem_cons.mp hp with h | h
      · simp [h]
      · exact ih p h

/-- Every pending insert produced by the date loop carries the seat id the
loop was run for. -/
theorem dateLoop_seatId (st : Store) (seatId userId : String)
    (uName uEmail : Option String) (seatName : String) (slots : List Slot) :
    ∀ (dates : List String) (p : InsertBooking),
      p ∈ (dateLoop st seatId userId uName uEmail seatName slots dates).1 →
      p.seatId = seatId := by
  intro dates
  induction dates with
  | nil =>
    intro p hp
    simp [dateLoop] at hp
  | cons date rest ih =>
    intro p hp
    simp only [dateLoop] at hp
    rcases List.mem_append.mp hp with h | h
    · exact slotLoop_seatId seatId userId uName uEmail seatName _ date slots p h
    · exact ih p h

/-- A seat that exists but is blocked or long-term-reserved contributes no
pending insert in the bulk collection: every collected row names a
different seat id. -/
theorem seatLoop_avoids_unavailable_seat (st : Store) (userId : String)
    (uName uEmail : Option String) (dates : List String) (slots : List Slot)
    (sid : String) (seat : Seat) (hs : getSeat st sid = some seat)
    (hb : seat.isBlocked = true ∨ seat.isLongTermReserved = true) :
    ∀ (seatIds : List String) (p : InsertBooking),
      p ∈ (seatLoop st userId uName uEmail dates slots seatIds).1 →
      p.seatId ≠ sid := by
  intro seatIds
  induction seatIds with
  | nil =>
    intro p hp
    simp [seatLoop] at hp
  | cons seatId rest ih =>
    intro p hp
    simp only [seatLoop] at hp
    cases hg : getSeat st seatId with
    | none =>
      rw [hg] at hp
      exact ih p hp
    | some seat' =>
      rw [hg] at hp
      by_cases hbl : seat'.isBlocked = true
      · simp only [hbl, if_true] at hp
        exact ih p hp
      · simp only [hbl, if_false, Bool.false_eq_true] at hp
        by_cases hlt : seat'.isLongTermReserved = true
        · simp only [hlt, if_true] at hp
          exact ih p hp
        · simp only [hlt, if_false, Bool.false_eq_true] at hp
          have hne : seatId ≠ sid := by
            intro he
            rw [he, hs] at hg
            cases hg
            rcases hb with h | h
            · exact hbl h
            · exact hlt h
          rcases List.mem_append.mp hp with h | h
          · rw [dateLoop_seatId st seatId userId uName uEmail seat'.name slots dates p h]
            exact hne
          · exact ih p h

/-- Batch-inserting rows none of which names seat `sid` leaves the store's
bookings for `sid` unchanged. -/
theorem storageCreateBulkBookings_preserves_other_seats (sid : String) :
    ∀ (pending : List InsertBooking) (st : Store),
      (∀ p ∈ pending, p.seatId ≠ sid) →
      ((storageCreateBulkBookings st pending).2.bookings.filter (fun b => b.seatId == sid))
        = st.bookings.filter (fun b => b.seatId == sid) := by
  intro pending
  induction pending with
  | nil =>
    intro st _
    rfl
  | cons ins rest ih =>
    intro st h
    simp only [storageCreateBulkBookings]
    rw [ih _ (fun p hp => h p (List.mem_cons_of_mem _ hp))]
    simp only [storageCreateBooking]
    rw [List.filter_append]
    have hne : (ins.seatId == sid) = false := by
      have := h ins (List.mem_cons_self ins rest)
      simpa using this
    simp [hne]

/-! ## C3 -/

/-- Claim C3: a seat that exists but is blocked (or long-term reserved) is never
bookable: the single-booking handler answers some Conflict (409) and leaves
the store unchanged — regardless of the booking history and of whether the
insert would throw — and any bulk request leaves the store's bookings for
that seat exactly as they were (no combination of that seat is ever
inserted). -/
theorem C3_blocked_or_longterm_never_booked (st : Store) (sid : String) (seat : Seat)
    (hs : getSeat st sid = some seat)
    (hb : seat.isBlocked = true ∨ seat.isLongTermReserved = true)
    (userId : String) (uName uEmail : Option String) (date : String) (slot : Slot)
    (insertThrows : Bool) (req : BulkRequest) :
    (∃ msg, (postBookings st userId uName uEmail ⟨sid, date, slot⟩ insertThrows).1
        = Outcome.conflict msg)
    ∧ (postBookings st userId uName uEmail ⟨sid, date, slot⟩ insertThrows).2 = st
    ∧ ((postBulkBookings st userId uName uEmail req).2.bookings.filter
          (fun b => b.seatId == sid))
        = st.bookings.filter (fun b => b.seatId == sid) := by
  have hsingle : (∃ msg, (postBookings st userId uName uEmail ⟨sid, date, slot⟩ insertThrows).1
        = Outcome.conflict msg)
      ∧ (postBookings st userId uName uEmail ⟨sid, date, slot⟩ insertThrows).2 = st := by
    by_cases ht : (getBookingsBySeatAndDate st sid date).any (fun b => b.slot == slot) = true
    · constructor
      · exact ⟨"Slot already booked", by simp [postBookings, ht]⟩
      · simp [postBookings, ht]
    · by_cases hbl : seat.isBlocked = true
      · constructor
        · exact ⟨"Seat is blocked", by simp [postBookings, ht, hs, hbl]⟩
        · simp [postBookings, ht, hs, hbl]
      · have hlt : seat.isLongTermReserved = true := hb.resolve_left hbl
        constructor
        · exact ⟨"Seat is reserved for long-term use",
            by simp [postBookings, ht, hs, hbl, hlt]⟩
        · simp [postBookings, ht, hs, hbl, hlt]
  refine ⟨hsingle.1, hsingle.2, ?_⟩
  by_cases hv : (req.seatIds.isEmpty || req.dates.isEmpty || req.slots.isEmpty) = true
  · simp [postBulkBookings, hv]
  · by_cases hpend :
      (seatLoop st userId uName uEmail req.dates req.slots req.seatIds).1.isEmpty = true
    · simp [postBulkBookings, hv, hpend]
    · simp only [postBulkBookings]
      rw [if_neg hv, if_neg hpend]
      exact storageCreateBulkBookings_preserves_other_seats sid _ st
        (fun p hp => seatLoop_avoids_unavailable_seat st userId uName uEmail
          req.dates req.slots sid seat hs hb req.seatIds p hp)

/-- Claim C3, witnessed: on the concrete store with blocked seat B and its AM
slot even already occupied, the hypotheses hold and the conclusions follow
for a concrete single request and a concrete bulk request naming B. -/
theorem C3_witness :
    (∃ msg, (postBookings stBlockedAndTaken "u1" none none
        ⟨"B", "2024-01-10", Slot.AM⟩ false).1 = Outcome.conflict msg)
    ∧ (postBookings stBlockedAndTaken "u1" none none
        ⟨"B", "2024-01-10", Slot.AM⟩ false).2 = stBlockedAndTaken
    ∧ ((postBulkBookings stBlockedAndTaken "u1" none none
          ⟨["B"], ["2024-01-10"], [Slot.AM, Slot.PM]⟩).2.bookings.filter
          (fun b => b.seatId == "B"))
        = stBlockedAndTaken.bookings.filter (fun b => b.seatId == "B") :=
  C3_blocked_or_longterm_never_booked stBlockedAndTaken "B" seatBlockedB (by rfl)
    (Or.inl (by rfl)) "u1" none none "2024-01-10" Slot.AM false
    ⟨["B"], ["2024-01-10"], [Slot.AM, Slot.PM]⟩

/-! ## C4 -/

/-- Claim C4 counterexample: with seats = [A, B], dates = [d1, d2],
slots = [AM, PM], A fully available and B blocked, the bulk handler creates
4 bookings but records exactly ONE conflict entry ("Seat B1 is blocked"),
not the 2 entries the claim states. -/
theorem C4_counterexample_one_conflict_not_two :
    bulkCreatedCount
      (postBulkBookings stFreeABlockedB "u1" none none
        { seatIds := ["A", "B"], dates := ["2024-01-10", "2024-01-11"],
          slots := [Slot.AM, Slot.PM] }).1 = some 4
    ∧ bulkFailedCount
      (postBulkBookings stFreeABlockedB "u1" none none
        { seatIds := ["A", "B"], dates := ["2024-01-10", "2024-01-11"],
          slots := [Slot.AM, Slot.PM] }).1 = some 1
    ∧ bulkConflicts
      (postBulkBookings stFreeABlockedB "u1" none none
        { seatIds := ["A", "B"], dates := ["2024-01-10", "2024-01-11"],
          slots := [Slot.AM, Slot.PM] }).1 = some ["Seat B1 is blocked"]
    ∧ (1 : Nat) ≠ 2 := by
  refine ⟨rfl, rfl, rfl, by decide⟩

/-- Claim C4 amended: in the scenario of the claim (seats = [a, b], dates =
[d1, d2], slots = [AM, PM], seat a fully available on both dates, seat b
blocked) the bulk handler produces exactly 4 created bookings — a×d1×AM,
a×d1×PM, a×d2×AM, a×d2×PM, in that order — and exactly ONE conflict entry
for the blocked seat: a seat-level disqualification is recorded once per
seat, not once per date×slot combination, and skips all of that seat's
combinations. -/
theorem C4_amended_four_created_one_conflict (st : Store) (a b d1 d2 : String)
    (sa sb : Seat) (userId : String) (uName uEmail : Option String)
    (ha : getSeat st a = some sa) (hba : sa.isBlocked = false)
    (hla : sa.isLongTermReserved = false)
    (h1 : getBookingsBySeatAndDate st a d1 = [])
    (h2 : getBookingsBySeatAndDate st a d2 = [])
    (hb : getSeat st b = some sb) (hbb : sb.isBlocked = true) :
    ∃ rows st1,
      postBulkBookings st userId uName uEmail
          { seatIds := [a, b], dates := [d1, d2], slots := [Slot.AM, Slot.PM] }
        = (BulkOutcome.success
            { bookings := rows
              conflicts := some ["Seat " ++ sb.name ++ " is blocked"]
              created := 4
              failed := 1 }, st1)
      ∧ rows.map (fun bk => (bk.seatId, bk.date, bk.slot))
          = [(a, d1, Slot.AM), (a, d1, Slot.PM), (a, d2, Slot.AM), (a, d2, Slot.PM)] := by
  have hcollect : seatLoop st userId uName uEmail [d1, d2] [Slot.AM, Slot.PM] [a, b]
      = ([{ seatId := a, userId := userId, userName := uName, userEmail := uEmail,
            date := d1, slot := Slot.AM },
          { seatId := a, userId := userId, userName := uName, userEmail := uEmail,
            date := d1, slot := Slot.PM },
          { seatId := a, userId := userId, userName := uName, userEmail := uEmail,
            date := d2, slot := Slot.AM },
          { seatId := a, userId := userId, userName := uName, userEmail := uEmail,
            date := d2, slot := Slot.PM }],
         ["Seat " ++ sb.name ++ " is blocked"]) := by
    simp [seatLoop, dateLoop, slotLoop, ha, hb, hba, hla, hbb, h1, h2]
  refine ⟨(storageCreateBulkBookings st
      [{ seatId := a, userId := userId, userName := uName, userEmail := uEmail,
         date := d1, slot := Slot.AM },
       { seatId := a, userId := userId, userName := uName, userEmail := uEmail,
         date := d1, slot := Slot.PM },
       { seatId := a, userId := userId, userName := uName, userEmail := uEmail,
         date := d2, slot := Slot.AM },
       { seatId := a, userId := userId, userName := uName, userEmail := uEmail,
         date := d2, slot := Slot.PM }]).1,
    (storageCreateBulkBookings st
      [{ seatId := a, userId := userId, userName := uName, userEmail := uEmail,
         date := d1, slot := Slot.AM },
       { seatId := a, userId := userId, userName := uName, userEmail := uEmail,
         date := d1, slot := Slot.PM },
       { seatId := a, userId := userId, userName := uName, userEmail := uEmail,
         date := d2, slot := Slot.AM },
       { seatId := a, userId := userId, userName := uName, userEmail := uEmail,
         date := d2, slot := Slot.PM }]).2, ?_, ?_⟩
  · simp [postBulkBookings, hcollect, storageCreateBulkBookings, storageCreateBooking]
  · simp [storageCreateBulkBookings, storageCreateBooking]

/-- Claim C4 amended, witnessed at the concrete two-seat store. -/
theorem C4_amended_witness :
    ∃ rows st1,
      postBulkBookings stFreeABlockedB "u1" none none
          { seatIds := ["A", "B"], dates := ["2024-01-10", "2024-01-11"],
            slots := [Slot.AM, Slot.PM] }
        = (BulkOutcome.success
            { bookings := rows
              conflicts := some ["Seat " ++ seatBlockedB.name ++ " is blocked"]
              created := 4
              failed := 1 }, st1)
      ∧ rows.map (fun bk => (bk.seatId, bk.date, bk.slot))
          = [("A", "2024-01-10", Slot.AM), ("A", "2024-01-10", Slot.PM),
             ("A", "2024-01-11", Slot.AM), ("A", "2024-01-11", Slot.PM)] :=
  C4_amended_four_created_one_conflict stFreeABlockedB "A" "B" "2024-01-10" "2024-01-11"
    seatFreeA seatBlockedB "u1" none none (by rfl) (by rfl) (by rfl) (by rfl) (by rfl)
    (by rfl) (by rfl)

/-! ## C5 -/

/-- Claim C5: when every seat×date×slot combination of a (schema-valid) bulk
request is rejected — the collected pending-create list is empty — the bulk
handler answers the overall failure "No bookings could be created" carrying
the itemized conflicts list, and the store is returned unchanged: the batch
insert is never reached. -/
theorem C5_all_rejected_no_partial_commit (st : Store) (userId : String)
    (uName uEmail : Option String) (req : BulkRequest)
    (hs : req.seatIds ≠ []) (hd : req.dates ≠ []) (hl : req.slots ≠ [])
    (hpend : (seatLoop st userId uName uEmail req.dates req.slots req.seatIds).1 = []) :
    postBulkBookings st userId uName uEmail req
      = (BulkOutcome.noneCreated "No bookings could be created"
          (seatLoop st userId uName uEmail req.dates req.slots req.seatIds).2, st) := by
  have hv : (req.seatIds.isEmpty || req.dates.isEmpty || req.slots.isEmpty) = false := by
    simp [hs, hd, hl]
  simp [postBulkBookings, hv, hpend]

/-- Claim C5, witnessed: a bulk request naming only the blocked seat B creates
nothing, reports the failure with the single itemized conflict, and leaves
the store untouched. -/
theorem C5_witness :
    postBulkBookings stBlockedOnly "u1" none none
        { seatIds := ["B"], dates := ["2024-01-10"], slots := [Slot.AM] }
      = (BulkOutcome.noneCreated "No bookings could be created"
          ["Seat B1 is blocked"], stBlockedOnly) := by
  have h := C5_all_rejected_no_partial_commit stBlockedOnly "u1" none none
    { seatIds := ["B"], dates := ["2024-01-10"], slots := [Slot.AM] }
    (by decide) (by decide) (by decide) (by rfl)
  rw [h]
  rfl

/-! ## C6 -/

/-- Claim C6: a bulk request with at least one accepted combination always
completes with a 201 report whose created count equals the length of the
created-bookings list, whose failed count equals the number of itemized
conflict strings, and which carries the itemized conflict strings whenever
there are any — an individual rejected combination never aborts the
batch. -/
theorem C6_partial_bulk_always_reports (st : Store) (userId : String)
    (uName uEmail : Option String) (req : BulkRequest)
    (hs : req.seatIds ≠ []) (hd : req.dates ≠ []) (hl : req.slots ≠ [])
    (hpend : (seatLoop st userId uName uEmail req.dates req.slots req.seatIds).1 ≠ []) :
    ∃ body st1,
      postBulkBookings st userId uName uEmail req = (BulkOutcome.success body, st1)
      ∧ body.created = body.bookings.length
      ∧ body.failed
          = (seatLoop st userId uName uEmail req.dates req.slots req.seatIds).2.length
      ∧ ((seatLoop st userId uName uEmail req.dates req.slots req.seatIds).2 ≠ [] →
          body.conflicts
            = some (seatLoop st userId uName uEmail req.dates req.slots req.seatIds).2) := by
  have hv : (req.seatIds.isEmpty || req.dates.isEmpty || req.slots.isEmpty) = false := by
    simp [hs, hd, hl]
  have hpendB :
      (seatLoop st userId uName uEmail req.dates req.slots req.seatIds).1.isEmpty = false := by
    simp [hpend]
  have hrun : postBulkBookings st userId uName uEmail req
      = (BulkOutcome.success
          { bookings := (storageCreateBulkBookings st
              (seatLoop st userId uName uEmail req.dates req.slots req.seatIds).1).1
            conflicts :=
              if (seatLoop st userId uName uEmail req.dates req.slots req.seatIds).2.length > 0
              then some (seatLoop st userId uName uEmail req.dates req.slots req.seatIds).2
              else none
            created := (storageCreateBulkBookings st
              (seatLoop st userId uName uEmail req.dates req.slots req.seatIds).1).1.length
            failed :=
              (seatLoop st userId uName uEmail req.dates req.slots req.seatIds).2.length },
        (storageCreateBulkBookings st
          (seatLoop st userId uName uEmail req.dates req.slots req.seatIds).1).2) := by
    simp only [postBulkBookings]
    rw [if_neg (by simp [hv]), if_neg (by simp [hpendB])]
  refine ⟨_, _, hrun, rfl, rfl, ?_⟩
  intro hc
  simp only
  rw [if_pos (List.length_pos.mpr hc)]

/-- Claim C6, witnessed: seats = [A, B] with B blocked, one date, one slot — one
accepted combination, one conflict; the 201 report carries matching counts
and the itemized conflict list. -/
theorem C6_witness :
    ∃ body st1,
      postBulkBookings stFreeABlockedB "u1" none none
          { seatIds := ["A", "B"], dates := ["2024-01-10"], slots := [Slot.AM] }
        = (BulkOutcome.success body, st1)
      ∧ body.created = body.bookings.length
      ∧ body.failed
          = (seatLoop stFreeABlockedB "u1" none none ["2024-01-10"] [Slot.AM]
              ["A", "B"]).2.length
      ∧ ((seatLoop stFreeABlockedB "u1" none none ["2024-01-10"] [Slot.AM]
            ["A", "B"]).2 ≠ [] →
          body.conflicts
            = some (seatLoop stFreeABlockedB "u1" none none ["2024-01-10"] [Slot.AM]
                ["A", "B"]).2) :=
  C6_partial_bulk_always_reports stFreeABlockedB "u1" none none
    { seatIds := ["A", "B"], dates := ["2024-01-10"], slots := [Slot.AM] }
    (by decide) (by decide) (by decide) (by decide)

/-! ## C7 -/

/-- Claim C7 counterexample: when the storage insert of a single booking fails
(the concurrent-duplicate / constraint-violation case the claim describes),
the handler's catch-all answers the 500 "Failed to create booking" server
error — it does NOT translate the failure into the Conflict "slot taken"
outcome; moreover the schema declares no uniqueness constraint the engine
could rely on. -/
theorem C7_counterexample_insert_failure_is_500 :
    (postBookings stFreeA "u1" none none
        { seatId := "A", date := "2024-01-10", slot := Slot.AM } true).1
      = Outcome.serverError "Failed to create booking"
    ∧ (postBookings stFreeA "u1" none none
        { seatId := "A", date := "2024-01-10", slot := Slot.AM } true).1
      ≠ Outcome.conflict "Slot already booked" := by
  exact ⟨rfl, by decide⟩

/-- Claim C7 amended: whenever the pre-checks pass (slot free, seat present,
neither blocked nor long-term reserved) and the storage insert then throws,
the single-booking handler returns the 500 "Failed to create booking"
response with the store unchanged; no remapping of an insert failure to a
409 Conflict exists in the handler. -/
theorem C7_amended_insert_failure_returns_500 (st : Store) (userId : String)
    (uName uEmail : Option String) (req : BookingRequest) (seat : Seat)
    (ht : (getBookingsBySeatAndDate st req.seatId req.date).any
      (fun b => b.slot == req.slot) = false)
    (hs : getSeat st req.seatId = some seat)
    (hbl : seat.isBlocked = false) (hlt : seat.isLongTermReserved = false) :
    postBookings st userId uName uEmail req true
      = (Outcome.serverError "Failed to create booking", st) := by
  simp [postBookings, ht, hs, hbl, hlt]

/-- Claim C7 amended, witnessed at the free-seat store. -/
theorem C7_amended_witness :
    postBookings stFreeA "u1" none none
        { seatId := "A", date := "2024-01-10", slot := Slot.AM } true
      = (Outcome.serverError "Failed to create booking", stFreeA) :=
  C7_amended_insert_failure_returns_500 stFreeA "u1" none none
    { seatId := "A", date := "2024-01-10", slot := Slot.AM } seatFreeA
    (by rfl) (by rfl) (by rfl) (by rfl)

/-! ## C8 -/

/-- Claim C8: cancelling a booking id that does not exist answers 404 "Booking
not found" with the store unchanged — before any authorization decision,
i.e. for every requester whatever their role; and a requester who neither
owns the booking nor is admin receives 403 "Not authorized to cancel this
booking" with the store unchanged, so the booking's `cancelledAt` stays as
it was (in particular null stays null). -/
theorem C8_cancel_not_found_then_authorization (st : Store) (uid bid : String) :
    (getBooking st bid = none →
      deleteBookingHandler st uid bid = (Outcome.notFound "Booking not found", st))
    ∧ (∀ b : Booking, getBooking st bid = some b → b.userId ≠ uid →
        (getUserRole st uid).map (fun r => r.role) ≠ some Role.admin →
        deleteBookingHandler st uid bid
          = (Outcome.forbidden "Not authorized to cancel this booking", st)) := by
  constructor
  · intro h
    simp [deleteBookingHandler, h]
  · intro b hb hown hrole
    have h1 : (b.userId != uid) = true := by
      simp [hown]
    have h2 : ((getUserRole st uid).map (fun r => r.role) != some Role.admin) = true := by
      simp [hrole]
    simp [deleteBookingHandler, hb, h1, h2]

/-- Claim C8, witnessed: the missing id "zzz" yields 404 for requester u2, and
u2 (non-owner, no admin role) cancelling booking "x" yields 403 with the
store — hence the booking's null `cancelledAt` — unchanged. -/
theorem C8_witness :
    deleteBookingHandler stWithBookingA "u2" "zzz"
        = (Outcome.notFound "Booking not found", stWithBookingA)
    ∧ deleteBookingHandler stWithBookingA "u2" "x"
        = (Outcome.forbidden "Not authorized to cancel this booking", stWithBookingA) := by
  constructor
  · exact (C8_cancel_not_found_then_authorization stWithBookingA "u2" "zzz").1 (by rfl)
  · exact (C8_cancel_not_found_then_authorization stWithBookingA "u2" "x").2
      { id := "x", seatId := "A", userId := "u0", userName := none, userEmail := none,
        date := "2024-01-10", slot := Slot.AM, createdAt := 0, cancelledAt := none }
      (by rfl) (by decide) (by decide)

/-! ## C9 -/

/-- Claim C9: after the owner cancels the sole non-cancelled booking `b` for its
(seatId, date, slot) tuple, a subsequent `createBooking` for the same tuple
by a different user returns 201 Created (not a Conflict), provided the seat
exists and is neither blocked nor long-term reserved. -/
theorem C9_cancellation_frees_the_slot (st : Store) (b : Booking) (u2 : String)
    (n e : Option String) (seat : Seat)
    (hget : getBooking st b.id = some b)
    (hact : b.cancelledAt = none)
    (hsole : ∀ x ∈ st.bookings, x.seatId = b.seatId → x.date = b.date →
      x.slot = b.slot → x.cancelledAt = none → x.id = b.id)
    (hseat : getSeat st b.seatId = some seat)
    (hnb : seat.isBlocked = false) (hnl : seat.isLongTermReserved = false)
    (hdiff : u2 ≠ b.userId) :
    isCreated (postBookings (deleteBookingHandler st b.userId b.id).2 u2 n e
      { seatId := b.seatId, date := b.date, slot := b.slot } false).1 = true := by
  have hcancel : (deleteBookingHandler st b.userId b.id).2
      = { st with bookings :=
            (st.bookings.map
              (fun x => if x.id == b.id then { x with cancelledAt := some st.now } else x)) } := by
    simp [deleteBookingHandler, hget, storageCancelBooking]
  rw [hcancel]
  set st1 : Store := { st with bookings :=
    (st.bookings.map
      (fun x => if x.id == b.id then { x with cancelledAt := some st.now } else x)) } with hst1
  have hfree : (getBookingsBySeatAndDate st1 b.seatId b.date).any
      (fun x => x.slot == b.slot) = false := by
    rw [Bool.eq_false_iff]
    intro hany
    rcases List.any_eq_true.mp hany with ⟨x, hxmem, hxslot⟩
    rcases List.mem_filter.mp hxmem with ⟨hxmem1, hxcond⟩
    rcases List.mem_map.mp hxmem1 with ⟨y, hymem, hyx⟩
    by_cases hid : (y.id == b.id) = true
    · rw [if_pos hid] at hyx
      rw [← hyx] at hxcond
      simp at hxcond
    · rw [if_neg hid] at hyx
      subst hyx
      simp only [Bool.and_eq_true, beq_iff_eq] at hxcond hxslot
      have := hsole y hymem hxcond.1.1 hxcond.1.2 hxslot hxcond.2
      rw [this] at hid
      simp at hid
  have hseat1 : getSeat st1 b.seatId = some seat := hseat
  simp [postBookings, hfree, hseat1, hnb, hnl, isCreated]

/-- Claim C9, witnessed: in the one-booking store, owner u0 cancels booking "x"
and then user u1 books the same (A, 2024-01-10, AM) tuple successfully. -/
theorem C9_witness :
    isCreated (postBookings (deleteBookingHandler stWithBookingA "u0" "x").2 "u1" none none
      { seatId := "A", date := "2024-01-10", slot := Slot.AM } false).1 = true :=
  C9_cancellation_frees_the_slot stWithBookingA
    { id := "x", seatId := "A", userId := "u0", userName := none, userEmail := none,
      date := "2024-01-10", slot := Slot.AM, createdAt := 0, cancelledAt := none }
    "u1" none none seatFreeA (by rfl) (by rfl) (by decide) (by rfl) (by rfl) (by rfl)
    (by decide)

/-! ## C10 -/

/-- Claim C10: an admin's request to the role-update endpoint targeting their own
user id with role "employee" is rejected 400 "Cannot demote yourself"; any
self-targeting request to the status endpoint is rejected 400 "Cannot
deactivate yourself"; any self-targeting request to the role-deletion
endpoint is rejected 400 "Cannot delete yourself" — each before any storage
write, so the store (in particular the admin's role record) is unchanged in
all three cases. -/
theorem C10_admin_cannot_remove_own_rights (st : Store) (adminId : String)
    (hA : (getUserRole st adminId).map (fun r => r.role) = some Role.admin)
    (body : RoleUpdateBody) (hr : body.role = some Role.employee) (isActive : Bool) :
    patchUserRole st adminId adminId body
        = (AdminOutcome.badRequest "Cannot demote yourself", st)
    ∧ patchUserStatus st adminId adminId isActive
        = (AdminOutcome.badRequest "Cannot deactivate yourself", st)
    ∧ deleteUserHandler st adminId adminId
        = (AdminOutcome.badRequest "Cannot delete yourself", st) := by
  have h1 : ((getUserRole st adminId).map (fun r => r.role) != some Role.admin) = false := by
    simp [hA]
  refine ⟨?_, ?_, ?_⟩
  · simp [patchUserRole, h1, hr]
  · simp [patchUserStatus, h1]
  · simp [deleteUserHandler, h1]

/-- Claim C10, witnessed at the concrete admin store: all three self-targeting
requests are rejected with the respective 400 message and the store is
unchanged. -/
theorem C10_witness :
    patchUserRole stAdmin "adm" "adm" { role := some Role.employee, isActive := none }
        = (AdminOutcome.badRequest "Cannot demote yourself", stAdmin)
    ∧ patchUserStatus stAdmin "adm" "adm" false
        = (AdminOutcome.badRequest "Cannot deactivate yourself", stAdmin)
    ∧ deleteUserHandler stAdmin "adm" "adm"
        = (AdminOutcome.badRequest "Cannot delete yourself", stAdmin) :=
  C10_admin_cannot_remove_own_rights stAdmin "adm" (by rfl)
    { role := some Role.employee, isActive := none } (by rfl) false

end HotDesking
